import Mathlib

/-!
Shallow embedding of `.gitlab/validate-logs-intgs/validate_log_intgs.py`,
the log-pipeline / integration consistency checker.

Python strings are modelled as Lean `String` over the ASCII fragment,
Python lists as `List`, `Optional[str]` as `Option String`.  File and
directory contents (manifest fields, README text, pipeline ids) are passed
in as explicit data, since the real script obtains them by I/O.  The
in-place mutation of check records performed by the matcher loop is
modelled by explicit state passing over the list of records.
-/

/-- ASCII single-quote character as a one-character string; it appears in
the Python f-strings of `validate` and in the `repr` of string lists. -/
def tick : String := String.mk [Char.ofNat 39]

/-- ASCII backtick character, the delimiter of fenced code spans in
`get_log_sources_in_readme`. -/
def backtick : Char := Char.ofNat 96

/-- Python regex `\w` word character over the ASCII fragment: letters,
digits and underscore. -/
def isWordChar (c : Char) : Bool := c.isAlphanum || c == '_'

/-- Fenced code spans: `re.findall(r'`+.*?`+', content, re.DOTALL)`.
At a position starting with a backtick run, the greedy leading run, the
lazy dot and the trailing run match the run together with everything up to
and including the next backtick run when one exists; when none exists the
leading run backtracks, so a run of length at least two matches by itself,
and a lone backtick does not match at all.  Scanning is non-overlapping
and resumes after each match.  `fuel` only bounds recursion depth; it is
instantiated with the length of the text. -/
def codeSections (fuel : Nat) (l : List Char) : List (List Char) :=
  match fuel, l with
  | 0, _ => []
  | _, [] => []
  | fuel + 1, c :: rest =>
    if c == backtick then
      let run := (c :: rest).takeWhile (· == backtick)
      let after := (c :: rest).drop run.length
      let mid := after.takeWhile (· != backtick)
      let afterMid := after.drop mid.length
      if afterMid.isEmpty then
        if run.length ≥ 2 then run :: codeSections fuel after
        else codeSections fuel rest
      else
        let close := afterMid.takeWhile (· == backtick)
        (run ++ mid ++ close) :: codeSections fuel (afterMid.drop close.length)
    else codeSections fuel rest

/-- Attempted match of `(?:"source"|source): "?(\w+)"?` at the head of the
text: the quoted alternative is tried first, then the bare one; after the
colon-space an optional opening double quote is consumed, the capture is
the maximal (greedy) run of word characters and must be non-empty, and an
optional closing double quote is consumed after it.  Returns the capture
and the rest of the text after the whole match. -/
def matchSourceAt (l : List Char) : Option (List Char × List Char) :=
  let quotedKey := "\"source\": ".data
  let bareKey := "source: ".data
  let afterKey : Option (List Char) :=
    if quotedKey.isPrefixOf l then some (l.drop quotedKey.length)
    else if bareKey.isPrefixOf l then some (l.drop bareKey.length)
    else none
  match afterKey with
  | none => none
  | some rest =>
    let rest1 := match rest with
      | '"' :: r => r
      | _ => rest
    let word := rest1.takeWhile isWordChar
    if word.isEmpty then none
    else
      let rest2 := rest1.drop word.length
      let rest3 := match rest2 with
        | '"' :: r => r
        | _ => rest2
      some (word, rest3)

/-- Left-to-right, non-overlapping scan of
`re.findall(r'(?:"source"|source): "?(\w+)"?', text, re.MULTILINE)`,
collecting the captures in order of occurrence.  `fuel` only bounds
recursion depth; it is instantiated with the length of the text. -/
def findSources (fuel : Nat) (l : List Char) : List (List Char) :=
  match fuel, l with
  | 0, _ => []
  | _, [] => []
  | fuel + 1, _ :: rest =>
    match matchSourceAt l with
    | some (word, rest2) => word :: findSources fuel rest2
    | none => findSources fuel rest

/-- Embedding of `CheckDefinition.get_log_sources_in_readme`, as a function
of the README text: isolate the backtick-fenced spans, join them with a
newline, scan the result for `source` declarations, and deduplicate the
captures (the Python `set`; its iteration order is an artifact, modelled
here by `List.dedup`, which keeps first occurrences). -/
def get_log_sources_in_readme (content : String) : List String :=
  let code_sections := codeSections content.data.length content.data
  let joined := List.intercalate ['\n'] code_sections
  let captures := findSources joined.length joined
  (captures.map (fun w => String.mk w)).dedup

/-- Python `str.lower()` over the ASCII fragment. -/
def lowerStr (s : String) : String := String.mk (s.data.map Char.toLower)

/-- In-memory record built by `CheckDefinition.__init__` for one
integration directory. -/
structure CheckDefinition where
  dir_name : String
  name : String
  integration_id : String
  log_collection : Bool
  log_source_name : Option String
  source_names_readme : List String
deriving DecidableEq

/-- Embedding of `CheckDefinition.__init__` given the manifest fields and
the README text: `log_collection` is membership of the literal
`"log collection"` in the manifest categories, `log_source_name` starts
unset, and the documented sources come from the README scan. -/
def CheckDefinition.init (dir_name manifest_name manifest_integration_id : String)
    (categories : List String) (readme : String) : CheckDefinition :=
  { dir_name := dir_name
    name := manifest_name
    integration_id := manifest_integration_id
    log_collection := categories.contains "log collection"
    log_source_name := none
    source_names_readme := get_log_sources_in_readme readme }

/-- Embedding of `CheckDefinition.set_log_source_name`. -/
def set_log_source_name (c : CheckDefinition) (s : String) : CheckDefinition :=
  { c with log_source_name := some s }

/-- Embedding of `CheckDefinition.is_self`: the lower-cased candidate list
is the directory name, the display name, the integration id and every
documented source, and the probe is the lower-cased pipeline name. -/
def is_self (c : CheckDefinition) (other_check_name : String) : Bool :=
  let candidates := [lowerStr c.dir_name, lowerStr c.name, lowerStr c.integration_id]
    ++ c.source_names_readme.map lowerStr
  candidates.contains (lowerStr other_check_name)

/-- Text shared by both findings of the no-pipeline branch of `validate`. -/
def missingTxt : String := "does not have a log pipeline"

/-- Python `repr` of a list of strings, as interpolated by the f-string of
the multiple-sources finding. -/
def pyListRepr (l : List String) : String :=
  "[" ++ String.intercalate ", " (l.map (fun s => tick ++ s ++ tick)) ++ "]"

/-- Finding emitted when a check has no pipeline but declares the
capability in its manifest. -/
def msgNoPipelineManifest (name : String) : String :=
  "Check " ++ name ++ " " ++ missingTxt ++ " but defines " ++ tick ++ "log collection" ++ tick
    ++ " in its manifest file."

/-- Finding emitted, once per documented source, when a check has no
pipeline but documents a source in its README. -/
def msgNoPipelineReadme (name source : String) : String :=
  "Check " ++ name ++ " " ++ missingTxt ++ " but defines " ++ tick ++ "source: " ++ source ++ tick
    ++ " in its README."

/-- Finding emitted when a check has a pipeline but no capability flag in
its manifest. -/
def msgPipelineNoManifest (name pipeline : String) : String :=
  "Check " ++ name ++ " has a log pipeline called " ++ pipeline
    ++ ".yaml but does not define " ++ tick ++ "log collection" ++ tick ++ " in its manifest file."

/-- Finding emitted when a check has a pipeline but no documented source. -/
def msgPipelineNoReadme (name pipeline : String) : String :=
  "Check " ++ name ++ " has a log pipeline called " ++ pipeline
    ++ ".yaml but does not document log collection in the README file."

/-- Finding emitted when a check has a pipeline but documents more than one
source. -/
def msgPipelineMultiSources (name pipeline : String) (sources : List String) : String :=
  "Check " ++ name ++ " has a log pipeline called " ++ pipeline
    ++ ".yaml but documents multiple sources as part of its README file. The log source ids are "
    ++ pyListRepr sources ++ "."

/-- Embedding of `CheckDefinition.validate`.  The Python guard is
`if not self.log_source_name`, which is taken both when the field is
`None` and when it is the empty string (falsy), so the with-pipeline
branch runs exactly for a non-empty pipeline name. -/
def validate (c : CheckDefinition) : List String :=
  match c.log_source_name with
  | none =>
    (if c.log_collection then [msgNoPipelineManifest c.name] else [])
      ++ c.source_names_readme.map (fun s => msgNoPipelineReadme c.name s)
  | some pipeline =>
    if pipeline = "" then
      (if c.log_collection then [msgNoPipelineManifest c.name] else [])
        ++ c.source_names_readme.map (fun s => msgNoPipelineReadme c.name s)
    else
      (if ¬ c.log_collection then [msgPipelineNoManifest c.name pipeline] else [])
        ++ (if c.source_names_readme.isEmpty then [msgPipelineNoReadme c.name pipeline] else [])
        ++ (if c.source_names_readme.length > 1 then
              [msgPipelineMultiSources c.name pipeline c.source_names_readme] else [])

/-- Embedding of `get_check_for_pipeline`: scan the checks in order and
return the first one whose `is_self` accepts the pipeline id; `None` when
no check does. -/
def get_check_for_pipeline (log_source_name : String) :
    List CheckDefinition → Option CheckDefinition
  | [] => none
  | c :: cs =>
    if is_self c log_source_name then some c
    else get_check_for_pipeline log_source_name cs

/-- One iteration of the matcher loop
`if check := get_check_for_pipeline(pipeline_id, all_checks):
check.set_log_source_name(pipeline_id)`: the first check accepted by
`is_self` has its `log_source_name` set in place; when no check matches,
the state is unchanged. -/
def bindPipeline (pipeline_id : String) : List CheckDefinition → List CheckDefinition
  | [] => []
  | c :: cs =>
    if is_self c pipeline_id then set_log_source_name c pipeline_id :: cs
    else c :: bindPipeline pipeline_id cs

/-- The whole matcher loop of `main`: fold `bindPipeline` over the pipeline
ids in the order the pipeline files are enumerated. -/
def runMatcher (pipeline_ids : List String) (checks : List CheckDefinition) :
    List CheckDefinition :=
  pipeline_ids.foldl (fun acc pid => bindPipeline pid acc) checks

/-- Index of the first check accepted by `is_self` for a pipeline id; this
is the record `get_check_for_pipeline` returns and `bindPipeline`
updates. -/
def firstMatchIdx (pipeline_id : String) : List CheckDefinition → Option Nat
  | [] => none
  | c :: cs =>
    if is_self c pipeline_id then some 0
    else (firstMatchIdx pipeline_id cs).map (· + 1)

/-- Report aggregation loop: `validation_errors_per_check[check.dir_name] =
errors` exactly for the checks whose `validate` is non-empty, in check
order (Python dict insertion order). -/
def buildReport (checks : List CheckDefinition) : List (String × List String) :=
  checks.filterMap (fun c =>
    let errors := validate c
    if errors.isEmpty then none else some (c.dir_name, errors))

/-- JSON string escaping for the characters that can occur here (quote and
backslash); a model of the string part of `json.dumps`. -/
def jsonEscape (s : String) : String :=
  String.mk (s.data.foldr (fun c acc =>
    if c == '"' || c == '\\' then '\\' :: c :: acc else c :: acc) [])

/-- JSON rendering of one string. -/
def jsonString (s : String) : String := "\"" ++ jsonEscape s ++ "\""

/-- Model of `json.dumps` on the report dictionary (string keys mapped to
lists of strings, default separators). -/
def jsonDump (report : List (String × List String)) : String :=
  "\x7b" ++ String.intercalate ", "
    (report.map (fun kv =>
      jsonString kv.1 ++ ": [" ++ String.intercalate ", " (kv.2.map jsonString) ++ "]"))
    ++ "\x7d"

/-- Exit state of one process run. -/
inductive ExitKind where
  | code (n : Nat)
  | uncaught (exc : String)
deriving DecidableEq

/-- Observable behaviour of one process run: the lines written to standard
output, the diagnostic lines written to standard error, and the exit
state. -/
structure ProcResult where
  stdoutLines : List String
  stderrLines : List String
  exit : ExitKind
deriving DecidableEq

/-- Usage message of the argv check. -/
def usageMsg : String := "This script requires a single JSON file as an argument."

/-- Model of the last diagnostic line of an uncaught `KeyError` raised by
`os.environ[key]`. -/
def keyErrorMsg (key : String) : String := "KeyError: " ++ tick ++ key ++ tick

/-- Top-level control flow of the script, in source order: the two
module-level environment lookups (lines 10-11) run first and raise an
uncaught `KeyError` when a variable is unset; only then does the argument
count check run, printing the usage message to standard error and exiting
with code 1; on a successful run the two resolved roots are printed, the
catalog and pipelines are processed and the JSON report is the last line
of standard output.  The catalog records and pipeline ids stand for the
successfully loaded filesystem contents (path normalisation by
`os.path.abspath` and the unused JSON argument file are not modelled). -/
def runScript (env : List (String × String)) (argvTail : List String)
    (checks : List CheckDefinition) (pipeline_ids : List String) : ProcResult :=
  match env.lookup "LOGS_BACKEND_INTGS_ROOT" with
  | none =>
    { stdoutLines := []
      stderrLines := [keyErrorMsg "LOGS_BACKEND_INTGS_ROOT"]
      exit := .uncaught "KeyError" }
  | some logsRoot =>
    match env.lookup "INTEGRATIONS_CORE_ROOT" with
    | none =>
      { stdoutLines := []
        stderrLines := [keyErrorMsg "INTEGRATIONS_CORE_ROOT"]
        exit := .uncaught "KeyError" }
    | some intgsRoot =>
      if argvTail.length ≠ 1 then
        { stdoutLines := []
          stderrLines := [usageMsg]
          exit := .code 1 }
      else
        { stdoutLines :=
            [logsRoot, intgsRoot, jsonDump (buildReport (runMatcher pipeline_ids checks))]
          stderrLines := []
          exit := .code 0 }

/-- Substring test on character lists: `hasInfix sub l` holds when `sub`
occurs contiguously in `l`. -/
def hasInfix (sub : List Char) : List Char → Bool
  | [] => sub.isEmpty
  | c :: rest => sub.isPrefixOf (c :: rest) || hasInfix sub rest

/-- A finding string mentions a phrase when the phrase occurs in it as a
contiguous substring. -/
def mentions (phrase s : String) : Bool := hasInfix phrase.data s.data

/-- The candidate-alias set of the Matcher contract, written from the
spec's words: the lower-casings of the directory name, the display name,
the integration id and every documented source; a pipeline id matches a
record when its lower-casing belongs to this set. -/
def pipelineAliasMatch (c : CheckDefinition) (pipeline_id : String) : Prop :=
  lowerStr pipeline_id ∈
    [lowerStr c.dir_name, lowerStr c.name, lowerStr c.integration_id]
      ++ c.source_names_readme.map lowerStr

/-- Agreement of two catalog records up to the iteration order of the
documented-source set: every field coincides, and the documented-source
lists are permutations of one another (the Python `set` fixes the
elements of `source_names_readme` but not their order). -/
def recordsAgree (a b : CheckDefinition) : Prop :=
  a.dir_name = b.dir_name ∧ a.name = b.name ∧ a.integration_id = b.integration_id ∧
    a.log_collection = b.log_collection ∧ a.log_source_name = b.log_source_name ∧
    List.Perm a.source_names_readme b.source_names_readme

/-- Two record lists built from the same catalog snapshot: pointwise
`recordsAgree`.  Directory enumeration is sorted, so the record order is
fixed by the snapshot; only the documented-source order may differ
between runs. -/
def sameSnapshot : List CheckDefinition → List CheckDefinition → Prop
  | [], [] => True
  | a :: xs, b :: ys => recordsAgree a b ∧ sameSnapshot xs ys
  | _, _ => False

instance (a b : CheckDefinition) : Decidable (recordsAgree a b) := by
  unfold recordsAgree; infer_instance

instance instDecSameSnapshot : (r1 r2 : List CheckDefinition) → Decidable (sameSnapshot r1 r2)
  | [], [] => isTrue trivial
  | [], _ :: _ => isFalse fun h => h
  | _ :: _, [] => isFalse fun h => h
  | _ :: xs, _ :: ys => @instDecidableAnd _ _ _ (instDecSameSnapshot xs ys)

theorem hasInfix_iff (sub l : List Char) : hasInfix sub l = true ↔ sub <:+: l := by
  induction l with
  | nil => simp [hasInfix, List.isEmpty_iff, List.infix_nil]
  | cons c rest ih =>
    simp only [hasInfix, Bool.or_eq_true, List.isPrefixOf_iff_prefix, ih,
      List.infix_cons_iff]

theorem hasInfix_of_append (sub a b : List Char) : hasInfix sub (a ++ sub ++ b) = true := by
  rw [hasInfix_iff]
  exact ⟨a, b, rfl⟩

theorem mentions_of_eq (phrase a b s : String) (h : s = a ++ phrase ++ b) :
    mentions phrase s = true := by
  subst h
  simp only [mentions, String.data_append]
  exact hasInfix_of_append _ _ _

theorem mentions_msgNoPipelineManifest (name : String) :
    mentions missingTxt (msgNoPipelineManifest name) = true := by
  apply mentions_of_eq missingTxt ("Check " ++ name ++ " ")
    (" but defines " ++ tick ++ "log collection" ++ tick ++ " in its manifest file.")
  simp [msgNoPipelineManifest, String.append_assoc]

theorem mentions_msgNoPipelineReadme (name source : String) :
    mentions missingTxt (msgNoPipelineReadme name source) = true := by
  apply mentions_of_eq missingTxt ("Check " ++ name ++ " ")
    (" but defines " ++ tick ++ "source: " ++ source ++ tick ++ " in its README.")
  simp [msgNoPipelineReadme, String.append_assoc]

theorem is_self_iff (c : CheckDefinition) (pipeline_id : String) :
    is_self c pipeline_id = true ↔ pipelineAliasMatch c pipeline_id := by
  simp [is_self, pipelineAliasMatch, List.elem_iff]

/-- C1 (claim as stated is false): an integration with a matched pipeline,
the capability flag set, and exactly one documented source different from
the pipeline id receives an empty findings list — `validate` never reports
the anomalous combination.  Concrete input: pipeline `apache`, single
documented source `nginx`. -/
theorem c1_claim_counterexample :
    (let c : CheckDefinition :=
      { dir_name := "apache", name := "Apache", integration_id := "apache",
        log_collection := true, log_source_name := some "apache",
        source_names_readme := ["nginx"] }
     c.log_source_name = some "apache" ∧ c.log_collection = true ∧
       c.source_names_readme = ["nginx"] ∧ ("nginx" : String) ≠ "apache" ∧
       validate c = []) := by
  decide

/-- C1 (amended): for every integration record with a matched (non-empty)
pipeline id, the capability flag set, and exactly one documented source
whose value differs from the matched pipeline id, the Validator returns an
empty findings list — the anomalous combination is silently accepted as
consistent, not reported. -/
theorem c1_amended_anomaly_silently_accepted
    (c : CheckDefinition) (pipeline_id s : String)
    (hpid : c.log_source_name = some pipeline_id) (hne : pipeline_id ≠ "")
    (hcap : c.log_collection = true)
    (hsrc : c.source_names_readme = [s]) (hdiff : s ≠ pipeline_id) :
    validate c = [] := by
  simp [validate, hpid, hne, hcap, hsrc]

/-- Witness for `c1_amended_anomaly_silently_accepted` at the concrete
record of the counterexample. -/
theorem c1_amended_witness :
    validate { dir_name := "apache", name := "Apache", integration_id := "apache",
               log_collection := true, log_source_name := some "apache",
               source_names_readme := ["nginx"] } = [] :=
  c1_amended_anomaly_silently_accepted _ "apache" "nginx" rfl (by decide) rfl rfl (by decide)

/-- C2 (claim as stated is false): with the capability flag set, no matched
pipeline and one documented source, the findings list contains two
findings whose text mentions the missing pipeline, not exactly one — the
per-source finding also says the check does not have a log pipeline. -/
theorem c2_claim_counterexample :
    (let c : CheckDefinition :=
      { dir_name := "redis", name := "Redis", integration_id := "redis",
        log_collection := true, log_source_name := none,
        source_names_readme := ["redis"] }
     c.log_collection = true ∧ c.log_source_name = none ∧
       (validate c).countP (fun f => mentions missingTxt f) = 2) := by
  decide

/-- C2 (amended): for every integration record with the capability flag set
and no matched pipeline, the number of findings mentioning the missing
pipeline is one plus the number of documented sources: one finding for the
manifest capability flag, and one per documented source, each of which
also mentions the missing pipeline. -/
theorem c2_amended_missing_pipeline_finding_count
    (c : CheckDefinition)
    (hpid : c.log_source_name = none) (hcap : c.log_collection = true) :
    (validate c).countP (fun f => mentions missingTxt f) =
      1 + c.source_names_readme.length := by
  simp only [validate, hpid, hcap, if_true]
  rw [List.countP_append, List.countP_map]
  have hlen : List.countP
      ((fun f => mentions missingTxt f) ∘ fun s => msgNoPipelineReadme c.name s)
      c.source_names_readme = c.source_names_readme.length :=
    List.countP_eq_length.2 (fun s _ => mentions_msgNoPipelineReadme c.name s)
  rw [hlen]
  simp [List.countP_cons, mentions_msgNoPipelineManifest, Nat.add_comm]

/-- Witness for `c2_amended_missing_pipeline_finding_count` at the concrete
record of the counterexample. -/
theorem c2_amended_witness :
    (validate { dir_name := "redis", name := "Redis", integration_id := "redis",
                log_collection := true, log_source_name := none,
                source_names_readme := ["redis"] }).countP
        (fun f => mentions missingTxt f) = 1 + 1 :=
  c2_amended_missing_pipeline_finding_count _ rfl rfl

/-- C3: for every integration record with a matched (non-empty) pipeline
id, the capability flag set, and `documented_sources` containing exactly
that pipeline id (case-insensitively) as its single entry, the Validator
returns an empty findings list. -/
theorem c3_consistent_record_no_findings
    (c : CheckDefinition) (pipeline_id s : String)
    (hpid : c.log_source_name = some pipeline_id) (hne : pipeline_id ≠ "")
    (hcap : c.log_collection = true)
    (hsrc : c.source_names_readme = [s])
    (heq : lowerStr s = lowerStr pipeline_id) :
    validate c = [] := by
  simp [validate, hpid, hne, hcap, hsrc]

/-- Witness for `c3_consistent_record_no_findings`: pipeline `apache`,
single documented source `Apache` (case-insensitively equal). -/
theorem c3_witness :
    validate { dir_name := "apache", name := "Apache", integration_id := "apache",
               log_collection := true, log_source_name := some "apache",
               source_names_readme := ["Apache"] } = [] :=
  c3_consistent_record_no_findings _ "apache" "Apache" rfl (by decide) rfl rfl (by decide)

theorem get_check_cons_pos {a : CheckDefinition} {pid : String} (cs : List CheckDefinition)
    (h : is_self a pid = true) : get_check_for_pipeline pid (a :: cs) = some a := by
  simp [get_check_for_pipeline, h]

theorem get_check_cons_neg {a : CheckDefinition} {pid : String} (cs : List CheckDefinition)
    (h : is_self a pid = false) :
    get_check_for_pipeline pid (a :: cs) = get_check_for_pipeline pid cs := by
  simp [get_check_for_pipeline, h]

/-- C4: for every pipeline identifier, the Matcher returns `None` exactly
when no record's candidate-alias set (the lower-casings of the directory
name, the display name, the integration id and every documented source)
contains the lower-cased identifier, and otherwise returns the first
record in catalog order whose alias set contains it: the returned record
matches and every record before it in the list does not. -/
theorem c4_matcher_returns_first_alias_match (pid : String) (checks : List CheckDefinition) :
    (get_check_for_pipeline pid checks = none ↔
      ∀ c ∈ checks, ¬ pipelineAliasMatch c pid) ∧
    (∀ c, get_check_for_pipeline pid checks = some c →
      pipelineAliasMatch c pid ∧
        ∃ l1 l2, checks = l1 ++ c :: l2 ∧ ∀ c2 ∈ l1, ¬ pipelineAliasMatch c2 pid) := by
  induction checks with
  | nil => simp [get_check_for_pipeline]
  | cons a cs ih =>
    cases his : is_self a pid with
    | true =>
      have ha : pipelineAliasMatch a pid := (is_self_iff a pid).1 his
      constructor
      · rw [get_check_cons_pos cs his]
        constructor
        · intro hc; exact absurd hc (by simp)
        · intro hall; exact absurd ha (hall a (List.mem_cons_self a cs))
      · intro c hc
        rw [get_check_cons_pos cs his] at hc
        cases hc
        exact ⟨ha, [], cs, rfl, by simp⟩
    | false =>
      have hna : ¬ pipelineAliasMatch a pid := fun hm => by
        rw [(is_self_iff a pid).2 hm] at his; cases his
      constructor
      · rw [get_check_cons_neg cs his, ih.1]
        constructor
        · intro hall c hc
          cases hc with
          | head => exact hna
          | tail _ hmem => exact hall c hmem
        · intro hall c hc
          exact hall c (List.mem_cons_of_mem a hc)
      · intro c hc
        rw [get_check_cons_neg cs his] at hc
        obtain ⟨hm, l1, l2, heq, hall⟩ := ih.2 c hc
        refine ⟨hm, a :: l1, l2, by rw [heq]; rfl, ?_⟩
        intro c2 hc2
        cases hc2 with
        | head => exact hna
        | tail _ hmem => exact hall c2 hmem

/-- Witness for `c4_matcher_returns_first_alias_match`: in a two-record
catalog where only the second record aliases pipeline id `MyPipe`
(case-insensitively, via its directory name), the Matcher returns the
second record and the first record does not match. -/
theorem c4_witness :
    pipelineAliasMatch
        { dir_name := "mypipe", name := "My Pipe", integration_id := "my-pipe",
          log_collection := true, log_source_name := none,
          source_names_readme := [] } "MyPipe" ∧
      ∃ l1 l2,
        ([{ dir_name := "aerospike", name := "Aerospike", integration_id := "aerospike",
            log_collection := false, log_source_name := none,
            source_names_readme := [] },
          { dir_name := "mypipe", name := "My Pipe", integration_id := "my-pipe",
            log_collection := true, log_source_name := none,
            source_names_readme := [] }] : List CheckDefinition) =
          l1 ++ { dir_name := "mypipe", name := "My Pipe", integration_id := "my-pipe",
                  log_collection := true, log_source_name := none,
                  source_names_readme := [] } :: l2 ∧
          ∀ c2 ∈ l1, ¬ pipelineAliasMatch c2 "MyPipe" :=
  (c4_matcher_returns_first_alias_match "MyPipe" _).2 _ (by decide)

theorem is_self_set (c : CheckDefinition) (s pid : String) :
    is_self (set_log_source_name c s) pid = is_self c pid := rfl

theorem firstMatchIdx_bind (p q : String) (checks : List CheckDefinition) :
    firstMatchIdx q (bindPipeline p checks) = firstMatchIdx q checks := by
  induction checks with
  | nil => rfl
  | cons c cs ih =>
    by_cases h : is_self c p = true
    · simp [bindPipeline, h, firstMatchIdx, is_self_set]
    · simp [bindPipeline, h, firstMatchIdx, ih]

theorem bindPipeline_getElem (pid : String) (checks : List CheckDefinition) (i : Nat) :
    (bindPipeline pid checks)[i]? =
      if firstMatchIdx pid checks = some i then
        checks[i]?.map (fun c => set_log_source_name c pid)
      else checks[i]? := by
  induction checks generalizing i with
  | nil => simp [bindPipeline, firstMatchIdx]
  | cons c cs ih =>
    by_cases h : is_self c pid = true
    · cases i with
      | zero => simp [bindPipeline, h, firstMatchIdx]
      | succ j => simp [bindPipeline, h, firstMatchIdx, Nat.succ_ne_zero]
    · have hcond : ∀ k, ((firstMatchIdx pid cs).map (· + 1) = some (k + 1)) ↔
          firstMatchIdx pid cs = some k := by
        intro k
        cases hf : firstMatchIdx pid cs <;> simp [hf]
      cases i with
      | zero =>
        have hzero : ((firstMatchIdx pid cs).map (· + 1)) ≠ some 0 := by
          cases hf : firstMatchIdx pid cs <;> simp [hf]
        simp [bindPipeline, h, firstMatchIdx, hzero]
      | succ j =>
        by_cases hc : firstMatchIdx pid cs = some j
        · simp [bindPipeline, h, firstMatchIdx, ih, hc, (hcond j).2 hc]
        · have : ((firstMatchIdx pid cs).map (· + 1)) ≠ some (j + 1) :=
            fun hx => hc ((hcond j).1 hx)
          simp [bindPipeline, h, firstMatchIdx, ih, hc, this]

/-- C5 (claim as stated is false): with a single record whose directory
name is `a` and whose display name is `b`, the matcher pass over pipeline
ids `["a", "b"]` first binds `a` and then overwrites the binding with
`b` — `matched_pipeline_id`, once set, is changed again by a later
pipeline id of the same run. -/
theorem c5_claim_counterexample :
    ((runMatcher ["a"]
        [{ dir_name := "a", name := "b", integration_id := "a",
           log_collection := true, log_source_name := none,
           source_names_readme := [] }]).map CheckDefinition.log_source_name
      = [some "a"]) ∧
    ((runMatcher ["a", "b"]
        [{ dir_name := "a", name := "b", integration_id := "a",
           log_collection := true, log_source_name := none,
           source_names_readme := [] }]).map CheckDefinition.log_source_name
      = [some "b"]) := by
  decide

/-- C5 (amended): `log_source_name` starts unset at record construction,
and the matcher pass may set it several times: after the run, the record
at position `idx` holds the result of successively overwriting its initial
value with every pipeline id (in pipeline order) whose first `is_self`
match in the catalog is that record — i.e. the LAST such pipeline id, not
the first. -/
theorem c5_amended_last_binding_wins :
    (∀ d n i cat readme,
      (CheckDefinition.init d n i cat readme).log_source_name = none) ∧
    (∀ (pids : List String) (checks : List CheckDefinition) (idx : Nat),
      ((runMatcher pids checks)[idx]?).map CheckDefinition.log_source_name =
        (checks[idx]?).map (fun c =>
          pids.foldl
            (fun acc p => if firstMatchIdx p checks = some idx then some p else acc)
            c.log_source_name)) := by
  constructor
  · intro d n i cat readme
    rfl
  · intro pids checks idx
    induction pids generalizing checks with
    | nil => simp [runMatcher]
    | cons p ps ih =>
      have hrun : runMatcher (p :: ps) checks = runMatcher ps (bindPipeline p checks) := rfl
      rw [hrun, ih (bindPipeline p checks)]
      have hfn : (fun (c : CheckDefinition) =>
          ps.foldl (fun acc q => if firstMatchIdx q (bindPipeline p checks) = some idx
            then some q else acc) c.log_source_name) =
          (fun (c : CheckDefinition) =>
          ps.foldl (fun acc q => if firstMatchIdx q checks = some idx then some q else acc)
            c.log_source_name) := by
        funext c
        congr 1
        funext acc q
        rw [firstMatchIdx_bind]
      rw [hfn, bindPipeline_getElem]
      by_cases hc : firstMatchIdx p checks = some idx
      · rw [if_pos hc, Option.map_map]
        congr 1
        funext c
        show ps.foldl _ (set_log_source_name c p).log_source_name =
          List.foldl _
            (if firstMatchIdx p checks = some idx then some p else c.log_source_name) ps
        rw [if_pos hc]
        rfl
      · rw [if_neg hc]
        congr 1
        funext c
        show ps.foldl _ c.log_source_name =
          List.foldl _
            (if firstMatchIdx p checks = some idx then some p else c.log_source_name) ps
        rw [if_neg hc]

theorem buildReport_mem (checks : List CheckDefinition) (d : String) (es : List String) :
    (d, es) ∈ buildReport checks ↔
      ∃ c ∈ checks, c.dir_name = d ∧ validate c = es ∧ es ≠ [] := by
  rw [buildReport, List.mem_filterMap]
  constructor
  · rintro ⟨c, hc, hfc⟩
    dsimp only at hfc
    by_cases he : (validate c).isEmpty = true
    · rw [if_pos he] at hfc; cases hfc
    · rw [if_neg he] at hfc
      injection hfc with h
      rw [Prod.mk.injEq] at h
      obtain ⟨hd, hes⟩ := h
      refine ⟨c, hc, hd, hes, ?_⟩
      rw [← hes]
      simpa [List.isEmpty_iff] using he
  · rintro ⟨c, hc, hd, hes, hne⟩
    refine ⟨c, hc, ?_⟩
    dsimp only
    have he : (validate c).isEmpty = false := by
      rw [List.isEmpty_eq_false]
      rw [hes]; exact hne
    rw [if_neg (by simp [he])]
    rw [hd, hes]

/-- C6 (claim as stated is false): on a successful run over an empty
catalog, standard output is not the single JSON document — the script
first prints the two resolved root paths, so standard output has three
lines, the report being only the last. -/
theorem c6_claim_counterexample :
    ((runScript [("LOGS_BACKEND_INTGS_ROOT", "/lr"), ("INTEGRATIONS_CORE_ROOT", "/ic")]
        ["checks.json"] [] []).exit = ExitKind.code 0) ∧
    ((runScript [("LOGS_BACKEND_INTGS_ROOT", "/lr"), ("INTEGRATIONS_CORE_ROOT", "/ic")]
        ["checks.json"] [] []).stdoutLines ≠
      [jsonDump (buildReport (runMatcher [] []))]) := by
  decide

/-- C6 (amended): on a successful run, standard output consists of the two
resolved root directory paths, each on its own line, followed by a single
JSON document mapping each integration's directory name to its ordered
list of finding strings; integrations whose findings list is empty are
absent from that map. -/
theorem c6_amended_stdout_roots_then_report
    (env : List (String × String)) (argvTail : List String)
    (checks : List CheckDefinition) (pids : List String) (logsRoot intgsRoot : String)
    (h1 : env.lookup "LOGS_BACKEND_INTGS_ROOT" = some logsRoot)
    (h2 : env.lookup "INTEGRATIONS_CORE_ROOT" = some intgsRoot)
    (hargs : argvTail.length = 1) :
    (runScript env argvTail checks pids).exit = ExitKind.code 0 ∧
    (runScript env argvTail checks pids).stdoutLines =
      [logsRoot, intgsRoot, jsonDump (buildReport (runMatcher pids checks))] ∧
    (∀ d es, (d, es) ∈ buildReport (runMatcher pids checks) ↔
      ∃ c ∈ runMatcher pids checks, c.dir_name = d ∧ validate c = es ∧ es ≠ []) := by
  refine ⟨?_, ?_, fun d es => buildReport_mem _ d es⟩
  · simp [runScript, h1, h2, hargs]
  · simp [runScript, h1, h2, hargs]

/-- Witness for `c6_amended_stdout_roots_then_report` on an empty catalog
with both roots set. -/
theorem c6_amended_witness :
    (runScript [("LOGS_BACKEND_INTGS_ROOT", "/lr"), ("INTEGRATIONS_CORE_ROOT", "/ic")]
        ["checks.json"] [] []).exit = ExitKind.code 0 ∧
    (runScript [("LOGS_BACKEND_INTGS_ROOT", "/lr"), ("INTEGRATIONS_CORE_ROOT", "/ic")]
        ["checks.json"] [] []).stdoutLines =
      ["/lr", "/ic", jsonDump (buildReport (runMatcher [] []))] ∧
    (∀ d es, (d, es) ∈ buildReport (runMatcher [] []) ↔
      ∃ c ∈ runMatcher [] [], c.dir_name = d ∧ validate c = es ∧ es ≠ []) :=
  c6_amended_stdout_roots_then_report _ _ [] [] "/lr" "/ic" (by decide) (by decide) (by decide)

theorem perm_eq_of_short {l1 l2 : List String} (h : List.Perm l1 l2)
    (hl : l1.length ≤ 1) : l1 = l2 := by
  cases l1 with
  | nil => exact h.nil_eq
  | cons x xs =>
    cases xs with
    | nil => exact (List.perm_singleton.1 h.symm).symm
    | cons y ys => simp at hl

theorem recordsAgree_eq_of_short (a b : CheckDefinition) (h : recordsAgree a b)
    (hl : a.source_names_readme.length ≤ 1) : a = b := by
  obtain ⟨h1, h2, h3, h4, h5, h6⟩ := h
  have hsrc : a.source_names_readme = b.source_names_readme := perm_eq_of_short h6 hl
  cases a; cases b
  simp_all

theorem sameSnapshot_eq_of_short (r1 r2 : List CheckDefinition)
    (h : sameSnapshot r1 r2) (hone : ∀ c ∈ r1, c.source_names_readme.length ≤ 1) :
    r1 = r2 := by
  induction r1 generalizing r2 with
  | nil =>
    cases r2 with
    | nil => rfl
    | cons b ys => exact absurd h (fun hf => hf)
  | cons a xs ih =>
    cases r2 with
    | nil => exact absurd h (fun hf => hf)
    | cons b ys =>
      obtain ⟨hab, hrest⟩ := h
      have ha := recordsAgree_eq_of_short a b hab (hone a (List.mem_cons_self a xs))
      have hx := ih ys hrest (fun c hc => hone c (List.mem_cons_of_mem a hc))
      rw [ha, hx]

set_option maxRecDepth 10000 in
/-- C7 (claim as stated is false): two runs over the same catalog snapshot
— identical records except that the documented-source set `{a, b}` is
iterated in the two possible orders — produce different report bytes,
because the per-source findings are emitted in set-iteration order. -/
theorem c7_claim_counterexample :
    sameSnapshot
      [{ dir_name := "foo", name := "foo", integration_id := "foo",
         log_collection := true, log_source_name := none,
         source_names_readme := ["a", "b"] }]
      [{ dir_name := "foo", name := "foo", integration_id := "foo",
         log_collection := true, log_source_name := none,
         source_names_readme := ["b", "a"] }] ∧
    (runScript [("LOGS_BACKEND_INTGS_ROOT", "/lr"), ("INTEGRATIONS_CORE_ROOT", "/ic")]
        ["checks.json"]
        [{ dir_name := "foo", name := "foo", integration_id := "foo",
           log_collection := true, log_source_name := none,
           source_names_readme := ["a", "b"] }] []).stdoutLines ≠
      (runScript [("LOGS_BACKEND_INTGS_ROOT", "/lr"), ("INTEGRATIONS_CORE_ROOT", "/ic")]
        ["checks.json"]
        [{ dir_name := "foo", name := "foo", integration_id := "foo",
           log_collection := true, log_source_name := none,
           source_names_readme := ["b", "a"] }] []).stdoutLines := by
  decide

/-- C7 (amended): the report output is byte-identical across two runs over
the same catalog snapshot whenever no record documents more than one
source; with several documented sources on one record, the output depends
on the iteration order of the extracted source set, which the snapshot
does not determine. -/
theorem c7_amended_identical_when_sources_unique
    (env : List (String × String)) (argvTail : List String) (pids : List String)
    (r1 r2 : List CheckDefinition)
    (hs : sameSnapshot r1 r2)
    (hone : ∀ c ∈ r1, c.source_names_readme.length ≤ 1) :
    runScript env argvTail r1 pids = runScript env argvTail r2 pids := by
  rw [sameSnapshot_eq_of_short r1 r2 hs hone]

/-- Witness for `c7_amended_identical_when_sources_unique` on a one-record
snapshot with a single documented source. -/
theorem c7_amended_witness :
    runScript [("LOGS_BACKEND_INTGS_ROOT", "/lr"), ("INTEGRATIONS_CORE_ROOT", "/ic")]
        ["checks.json"]
        [{ dir_name := "foo", name := "foo", integration_id := "foo",
           log_collection := true, log_source_name := none,
           source_names_readme := ["a"] }] ["foo"] =
      runScript [("LOGS_BACKEND_INTGS_ROOT", "/lr"), ("INTEGRATIONS_CORE_ROOT", "/ic")]
        ["checks.json"]
        [{ dir_name := "foo", name := "foo", integration_id := "foo",
           log_collection := true, log_source_name := none,
           source_names_readme := ["a"] }] ["foo"] :=
  c7_amended_identical_when_sources_unique _ _ _ _ _ (by decide) (by decide)

/-- C8: whenever both root environment variables resolve and the script is
invoked with an argument count other than exactly one, it writes the usage
message to standard error and exits with code 1, having written nothing to
standard output. -/
theorem c8_wrong_arg_count_usage_exit
    (env : List (String × String)) (argvTail : List String)
    (checks : List CheckDefinition) (pids : List String) (logsRoot intgsRoot : String)
    (h1 : env.lookup "LOGS_BACKEND_INTGS_ROOT" = some logsRoot)
    (h2 : env.lookup "INTEGRATIONS_CORE_ROOT" = some intgsRoot)
    (hargs : argvTail.length ≠ 1) :
    runScript env argvTail checks pids =
      { stdoutLines := [], stderrLines := [usageMsg], exit := ExitKind.code 1 } := by
  simp [runScript, h1, h2, hargs]

/-- Witness for `c8_wrong_arg_count_usage_exit` with zero arguments. -/
theorem c8_witness :
    runScript [("LOGS_BACKEND_INTGS_ROOT", "/lr"), ("INTEGRATIONS_CORE_ROOT", "/ic")]
        [] [] [] =
      { stdoutLines := [], stderrLines := [usageMsg], exit := ExitKind.code 1 } :=
  c8_wrong_arg_count_usage_exit _ _ _ _ "/lr" "/ic" (by decide) (by decide) (by decide)

/-- C9: the module-level environment lookups run before the argument-count
check, so when either root variable is unset the run dies with an uncaught
`KeyError` — no usage message is written and nothing reaches standard
output — whatever the argument count is. -/
theorem c9_env_resolution_precedes_argv_check
    (env : List (String × String)) (argvTail : List String)
    (checks : List CheckDefinition) (pids : List String)
    (h : env.lookup "LOGS_BACKEND_INTGS_ROOT" = none ∨
      env.lookup "INTEGRATIONS_CORE_ROOT" = none) :
    (runScript env argvTail checks pids).exit = ExitKind.uncaught "KeyError" ∧
    (runScript env argvTail checks pids).stdoutLines = [] ∧
    usageMsg ∉ (runScript env argvTail checks pids).stderrLines := by
  cases h1 : env.lookup "LOGS_BACKEND_INTGS_ROOT" with
  | none =>
    refine ⟨by simp [runScript, h1], by simp [runScript, h1], ?_⟩
    simp only [runScript, h1]
    intro hmem
    rw [List.mem_singleton] at hmem
    exact absurd hmem (by decide)
  | some logsRoot =>
    have h2 : env.lookup "INTEGRATIONS_CORE_ROOT" = none := by
      cases h with
      | inl hl => rw [h1] at hl; cases hl
      | inr hr => exact hr
    refine ⟨by simp [runScript, h1, h2], by simp [runScript, h1, h2], ?_⟩
    simp only [runScript, h1, h2]
    intro hmem
    rw [List.mem_singleton] at hmem
    exact absurd hmem (by decide)

/-- Witness for `c9_env_resolution_precedes_argv_check`: empty environment
and a wrong argument count still produce the uncaught `KeyError`. -/
theorem c9_witness :
    (runScript [] ["a.json", "extra"] [] []).exit = ExitKind.uncaught "KeyError" ∧
    (runScript [] ["a.json", "extra"] [] []).stdoutLines = [] ∧
    usageMsg ∉ (runScript [] ["a.json", "extra"] [] []).stderrLines :=
  c9_env_resolution_precedes_argv_check [] ["a.json", "extra"] [] [] (Or.inl rfl)

theorem matchSourceAt_some (l word rest2 : List Char)
    (h : matchSourceAt l = some (word, rest2)) :
    word ≠ [] ∧ ∀ c ∈ word, isWordChar c = true := by
  unfold matchSourceAt at h
  dsimp only at h
  split at h
  · cases h
  · rename_i rest hrest
    split at h
    · cases h
    · rename_i hne
      injection h with h
      rw [Prod.mk.injEq] at h
      obtain ⟨hw, _⟩ := h
      subst hw
      constructor
      · intro hempty
        rw [hempty] at hne
        exact hne rfl
      · intro c hc
        exact List.mem_takeWhile_imp hc

theorem findSources_words (fuel : Nat) (l : List Char) (w : List Char)
    (hw : w ∈ findSources fuel l) : w ≠ [] ∧ ∀ c ∈ w, isWordChar c = true := by
  induction fuel generalizing l with
  | zero => simp [findSources] at hw
  | succ fuel ih =>
    cases l with
    | nil => simp [findSources] at hw
    | cons c rest =>
      rw [findSources] at hw
      cases hm : matchSourceAt (c :: rest) with
      | none =>
        rw [hm] at hw
        exact ih rest hw
      | some pair =>
        obtain ⟨word, rest2⟩ := pair
        rw [hm] at hw
        cases hw with
        | head => exact matchSourceAt_some _ _ _ hm
        | tail _ hmem => exact ih rest2 hmem

/-- C10: the Documentation Source Extractor returns a duplicate-free list;
every returned identifier is a non-empty maximal run of word characters
(letters, digits, underscore — the capture is the greedy `\w+`); and a
documented source containing another character is captured only up to the
first non-word character: `source: my-source` inside a fenced span yields
exactly `my`, while `source: abc_123` yields the full `abc_123`. -/
theorem c10_extractor_word_runs_no_duplicates :
    (∀ content, (get_log_sources_in_readme content).Nodup) ∧
    (∀ content s, s ∈ get_log_sources_in_readme content →
      s ≠ "" ∧ ∀ c ∈ s.data, isWordChar c = true) ∧
    get_log_sources_in_readme
      (String.mk (backtick :: ("source: my-source".data ++ [backtick]))) = ["my"] ∧
    get_log_sources_in_readme
      (String.mk (backtick :: ("source: abc_123".data ++ [backtick]))) = ["abc_123"] := by
  refine ⟨?_, ?_, by decide, by decide⟩
  · intro content
    exact List.nodup_dedup _
  · intro content s hs
    unfold get_log_sources_in_readme at hs
    dsimp only at hs
    rw [List.mem_dedup, List.mem_map] at hs
    obtain ⟨w, hwmem, hws⟩ := hs
    obtain ⟨hne, hall⟩ := findSources_words _ _ w hwmem
    subst hws
    constructor
    · intro h
      exact hne (congrArg String.data h)
    · intro c hc
      exact hall c hc

/-- Witness for `c10_extractor_word_runs_no_duplicates`, discharging the
membership hypothesis of its second part at the hyphen example. -/
theorem c10_witness :
    ("my" : String) ≠ "" ∧ ∀ c ∈ ("my" : String).data, isWordChar c = true :=
  c10_extractor_word_runs_no_duplicates.2.1
    (String.mk (backtick :: ("source: my-source".data ++ [backtick]))) "my"
    (by decide)
